import Mathlib

/-!
Verification of the microgrid dashboard client (src/app.js).

The dashboard keeps a single mutable snapshot (`currentData`, built by
`initializeData`), mutates it every tick with `simulateDataChanges`, and
renders it with `updateDashboard`/`updateCharts`.  We embed the snapshot as a
Lean structure over ℚ, the random draws of a tick as an explicit environment
record, and JavaScript `Math.round` as `⌊x + 1/2⌋`.  The `updateFromServer`
spread-merge seam is additionally modelled over a JSON-like association list,
which is what the JavaScript object spread actually operates on.
-/

namespace Microgrid

/-- JavaScript `Math.round`: round half towards positive infinity. -/
def jsRound (x : ℚ) : ℤ := ⌊x + 1 / 2⌋

/-- Rounding to one decimal place, the `Math.round(x * 10) / 10` idiom. -/
def round1 (x : ℚ) : ℚ := (jsRound (x * 10) : ℚ) / 10

/-- generation.solar subrecord of the snapshot. -/
structure Solar where
  dcPower : ℚ
  acPower : ℚ
  efficiency : ℚ
  irradiance : ℚ
  moduleTemp : ℚ
  deriving Repr, DecidableEq

/-- generation.wind subrecord of the snapshot. -/
structure WindGen where
  power : ℚ
  windSpeed : ℚ
  efficiency : ℚ
  deriving Repr, DecidableEq

/-- generation.cbg subrecord of the snapshot. -/
structure Cbg where
  power : ℚ
  status : String
  efficiency : ℚ
  deriving Repr, DecidableEq

/-- generation subrecord of the snapshot. -/
structure Generation where
  solar : Solar
  wind : WindGen
  cbg : Cbg
  totalGeneration : ℚ
  deriving Repr, DecidableEq

/-- One element of storage.batteryPacks. -/
structure BatteryPack where
  id : ℤ
  soc : ℚ
  soh : ℚ
  temp : ℚ
  voltage : ℚ
  deriving Repr, DecidableEq

/-- storage subrecord of the snapshot. -/
structure Storage where
  overallSOC : ℚ
  totalCapacity : ℚ
  chargePower : ℚ
  dischargePower : ℚ
  batteryPacks : List BatteryPack
  deriving Repr, DecidableEq

/-- demand subrecord of the snapshot. -/
structure Demand where
  totalLoad : ℚ
  criticalLoads : ℚ
  flexibleLoads : ℚ
  peakReduction : ℚ
  deriving Repr, DecidableEq

/-- systemMetrics.powerQuality subrecord of the snapshot. -/
structure PowerQuality where
  voltage : ℚ
  frequency : ℚ
  thd : ℚ
  deriving Repr, DecidableEq

/-- systemMetrics subrecord of the snapshot. -/
structure SystemMetrics where
  overallEfficiency : ℚ
  uptime : ℚ
  powerQuality : PowerQuality
  deriving Repr, DecidableEq

/-- weather subrecord of the snapshot. -/
structure Weather where
  temperature : ℚ
  humidity : ℚ
  windSpeed : ℚ
  irradiance : ℚ
  cloudCover : ℚ
  deriving Repr, DecidableEq

/-- Alert severity, the type field of an alert. -/
inductive AlertType where
  | info
  | warning
  | error
  deriving Repr, DecidableEq

/-- One element of the alerts sequence. -/
structure Alert where
  id : ℤ
  type : AlertType
  message : String
  time : String
  deriving Repr, DecidableEq

/-- The full System Snapshot, the shape of this.currentData. -/
structure SystemData where
  generation : Generation
  storage : Storage
  demand : Demand
  systemMetrics : SystemMetrics
  weather : Weather
  alerts : List Alert
  deriving Repr, DecidableEq

/-- The snapshot built by initializeData. -/
def initializeData : SystemData where
  generation :=
    { solar := { dcPower := 45.8, acPower := 43.2, efficiency := 94.3,
                 irradiance := 875, moduleTemp := 38.5 }
      wind := { power := 12.3, windSpeed := 8.2, efficiency := 89.1 }
      cbg := { power := 18.5, status := "operational", efficiency := 91.7 }
      totalGeneration := 74.0 }
  storage :=
    { overallSOC := 67, totalCapacity := 150, chargePower := 8.5,
      dischargePower := 0
      batteryPacks :=
        [ { id := 1, soc := 72, soh := 96, temp := 24.5, voltage := 48.2 },
          { id := 2, soc := 68, soh := 94, temp := 25.1, voltage := 48.0 },
          { id := 3, soc := 65, soh := 97, temp := 23.8, voltage := 47.9 },
          { id := 4, soc := 63, soh := 95, temp := 24.7, voltage := 47.8 } ] }
  demand :=
    { totalLoad := 65.5, criticalLoads := 28.2, flexibleLoads := 37.3,
      peakReduction := 23.4 }
  systemMetrics :=
    { overallEfficiency := 92.8, uptime := 99.7
      powerQuality := { voltage := 230.5, frequency := 50.02, thd := 1.8 } }
  weather :=
    { temperature := 28.5, humidity := 65, windSpeed := 8.2, irradiance := 875,
      cloudCover := 15 }
  alerts :=
    [ { id := 1, type := .info, message := "Battery Pack 4 SOC below 65%",
        time := "14:23" },
      { id := 2, type := .warning,
        message := "Cloud cover increasing - generation may decrease",
        time := "14:18" } ]

/-- The random draws and wall-clock context consumed by one call of
simulateDataChanges.  Each `Math.random()` call becomes one field; the
diurnal factor `1 + 0.2 * sin((hour - 6) * π / 12)` becomes `hourFactor`;
`Date.now()` and the formatted time become `now` and `timeStr`. -/
structure Env where
  rIrr : ℚ
  rWind : ℚ
  rCbg : ℚ
  hourFactor : ℚ
  packSocR : ℕ → ℚ
  packTempR : ℕ → ℚ
  rTemp : ℚ
  rCloud : ℚ
  rEff : ℚ
  spawnAlert : Bool
  rAlertType : ℚ
  rAlertMsg : ℚ
  now : ℤ
  timeStr : String

/-- Wind power curve of simulateDataChanges:
`Math.round(Math.pow(windSpeed / 12, 3) * 25 * 10) / 10`. -/
def windPower (windSpeed : ℚ) : ℚ := round1 ((windSpeed / 12) ^ 3 * 25)

/-- The battery-management block of simulateDataChanges, acting on
storage given the freshly computed power balance
`totalGeneration - totalLoad`. -/
def batteryStep (powerBalance : ℚ) (st : Storage) : Storage :=
  if powerBalance > 0 ∧ st.overallSOC < 95 then
    { st with chargePower := min (powerBalance * 0.8) 15
              dischargePower := 0
              overallSOC := min 95 (st.overallSOC + 0.1) }
  else if powerBalance < 0 ∧ st.overallSOC > 20 then
    { st with dischargePower := min |powerBalance| 20
              chargePower := 0
              overallSOC := max 20 (st.overallSOC - 0.2) }
  else
    st

/-- Per-pack update of the batteryPacks forEach: jitter soc around the
aggregate SOC clamped to [20, 95], jitter temp around 24, derive voltage. -/
def updatePack (rSoc rTemp : ℚ) (overallSOC : ℚ) (p : BatteryPack) :
    BatteryPack :=
  let soc := max 20 (min 95 (overallSOC + (rSoc - 0.5) * 8))
  { p with soc := soc
           temp := 24 + (rTemp - 0.5) * 4
           voltage := 47.5 + (soc / 100) * 1.5 }

/-- The batteryPacks forEach loop, one fresh pair of draws per pack. -/
def updatePacks (rs rt : ℕ → ℚ) (overallSOC : ℚ) :
    List BatteryPack → List BatteryPack
  | [] => []
  | p :: ps =>
      updatePack (rs 0) (rt 0) overallSOC p ::
        updatePacks (fun n => rs (n + 1)) (fun n => rt (n + 1)) overallSOC ps

/-- The fixed severity pool of the alert generator. -/
def alertTypes : List AlertType := [.info, .warning, .error]

/-- The fixed message pool of the alert generator. -/
def alertMessages : List String :=
  [ "System optimization completed",
    "Peak demand period approaching",
    "Weather forecast updated",
    "Maintenance reminder: Monthly inspection due",
    "Load balancing adjustment made" ]

/-- The freshly constructed alert of the probability-0.10 branch. -/
def mkAlert (env : Env) : Alert where
  id := env.now
  type := alertTypes.getD (⌊env.rAlertType * 3⌋.toNat) .info
  message := alertMessages.getD (⌊env.rAlertMsg * 5⌋.toNat) ""
  time := env.timeStr

/-- The alert block of simulateDataChanges: when the 10% branch fires,
unshift a new alert and pop the last entry once the length exceeds 5. -/
def alertStep (env : Env) (alerts : List Alert) : List Alert :=
  if env.spawnAlert then
    let grown := mkAlert env :: alerts
    if grown.length > 5 then grown.dropLast else grown
  else
    alerts

/-- One tick of simulateDataChanges, with every Math.random draw, the
wall-clock hour factor and the clock strings supplied by `env`. -/
def simulateDataChanges (env : Env) (data : SystemData) : SystemData :=
  let cloudFactor := (100 - data.weather.cloudCover) / 100
  let baseIrradiance := 850 + env.rIrr * 100
  let irradiance : ℚ := (jsRound (baseIrradiance * cloudFactor) : ℚ)
  let dcPower := round1 ((irradiance / 1000) * 52)
  let acPower := round1 (dcPower * 0.94)
  let windSpeed := max 0 (8.2 + (env.rWind - 0.5) * 4)
  let windP := windPower windSpeed
  let cbgPower := 18.5 + (env.rCbg - 0.5) * 2
  let totalGeneration := acPower + windP + cbgPower
  let totalLoad := round1 (65.5 * env.hourFactor)
  let criticalLoads := round1 (totalLoad * 0.43)
  let flexibleLoads := round1 (totalLoad * 0.57)
  let powerBalance := totalGeneration - totalLoad
  let storage1 := batteryStep powerBalance data.storage
  let storage2 :=
    { storage1 with
        batteryPacks :=
          updatePacks env.packSocR env.packTempR storage1.overallSOC
            storage1.batteryPacks }
  { generation :=
      { solar := { data.generation.solar with
                     dcPower := dcPower
                     acPower := acPower }
        wind := { data.generation.wind with power := windP }
        cbg := { data.generation.cbg with power := cbgPower }
        totalGeneration := totalGeneration }
    storage := storage2
    demand := { data.demand with
                  totalLoad := totalLoad
                  criticalLoads := criticalLoads
                  flexibleLoads := flexibleLoads }
    systemMetrics :=
      { data.systemMetrics with
          overallEfficiency := 92.8 + (env.rEff - 0.5) * 2 }
    weather :=
      { data.weather with
          temperature := 28.5 + (env.rTemp - 0.5) * 6
          windSpeed := windSpeed
          irradiance := irradiance
          cloudCover :=
            max 0 (min 100 (data.weather.cloudCover + (env.rCloud - 0.5) * 10)) }
    alerts := alertStep env data.alerts }

/-- States reachable from the initial snapshot by repeated simulation
steps, over arbitrary random draws. -/
inductive Reachable : SystemData → Prop where
  | init : Reachable initializeData
  | step (env : Env) {s : SystemData} : Reachable s →
      Reachable (simulateDataChanges env s)

/-- A presentation element, carrying the text the dashboard writes. -/
structure Element where
  textContent : String
  deriving Repr, DecidableEq

/-- The presentation surface: `document.getElementById` as a partial map
from identifiers to elements. -/
def Dom := String → Option Element

/-- A gauge handle: the two-entry dataset `[value, max - value]` of the
doughnut chart. -/
structure Gauge where
  data0 : ℚ
  data1 : ℚ
  deriving Repr, DecidableEq

/-- createGaugeChart: looks the canvas up and returns null when it is
absent, otherwise a chart whose dataset is `[value, max - value]`. -/
def createGaugeChart (dom : Dom) (canvasId : String) (value maxv : ℚ)
    (label unit color : String) : Option Gauge :=
  match dom canvasId with
  | none => none
  | some _ =>
      let _ := (label, unit, color)
      some { data0 := value, data1 := maxv - value }

/-- One guarded gauge write of updateCharts: `if (this.charts.g) { ... }`.
An absent handle is skipped; a present one gets dataset `[v, max - v]`. -/
def updateGauge (g : Option Gauge) (value maxv : ℚ) : Option Gauge :=
  match g with
  | none => none
  | some _ => some { data0 := value, data1 := maxv - value }

/-- Writing `el.textContent = text`: faults with a TypeError when the
element reference is null. -/
def setTextContent (el : Option Element) (text : String) :
    Except String Element :=
  match el with
  | none => Except.error "TypeError: textContent of null"
  | some _ => Except.ok { textContent := text }

/-- An unguarded KPI/list writer of updateDashboard:
`document.getElementById(id).textContent = text` with no presence check. -/
def writeKpi (dom : Dom) (id text : String) : Except String Element :=
  setTextContent (dom id) text

/-- The time-series chart state: labels plus the Generation and Demand
series of createDemandChart. -/
structure DemandChart where
  labels : List String
  genData : List ℚ
  loadData : List ℚ
  deriving Repr, DecidableEq

/-- The six buffered points the chart is created with. -/
def initialDemandChart : DemandChart where
  labels := ["14:00", "14:05", "14:10", "14:15", "14:20", "14:25"]
  genData := [72.1, 73.5, 74.8, 74.2, 74.0, 74.3]
  loadData := [63.2, 64.8, 65.1, 65.5, 65.5, 65.2]

/-- The demand-chart block of updateCharts: push one point onto each of
the label list and the two series, then shift all three once more than
10 labels are buffered. -/
def updateDemandChart (timeLabel : String) (gen load : ℚ)
    (c : DemandChart) : DemandChart :=
  let grown : DemandChart :=
    { labels := c.labels ++ [timeLabel]
      genData := c.genData ++ [gen]
      loadData := c.loadData ++ [load] }
  if grown.labels.length > 10 then
    { labels := grown.labels.tail
      genData := grown.genData.tail
      loadData := grown.loadData.tail }
  else
    grown

/-- Chart states reachable from the freshly created chart by repeated
render steps. -/
inductive ChartReachable : DemandChart → Prop where
  | init : ChartReachable initialDemandChart
  | step (t : String) (gen load : ℚ) {c : DemandChart} : ChartReachable c →
      ChartReachable (updateDemandChart t gen load c)

/-- The chart handles held in this.charts. -/
structure Charts where
  solarGauge : Option Gauge
  windGauge : Option Gauge
  cbgGauge : Option Gauge
  batteryGauge : Option Gauge
  demandChart : Option DemandChart
  deriving Repr, DecidableEq

/-- updateCharts: the four guarded gauge writes and the guarded
demand-chart window update. -/
def updateCharts (data : SystemData) (timeLabel : String) (cs : Charts) :
    Charts where
  solarGauge := updateGauge cs.solarGauge data.generation.solar.acPower 60
  windGauge := updateGauge cs.windGauge data.generation.wind.power 25
  cbgGauge := updateGauge cs.cbgGauge data.generation.cbg.power 30
  batteryGauge := updateGauge cs.batteryGauge data.storage.overallSOC 100
  demandChart :=
    cs.demandChart.map
      (updateDemandChart timeLabel data.generation.totalGeneration
        data.demand.totalLoad)

/-- A JavaScript value as stored in the snapshot object: number, string,
object (ordered field list) or array. -/
inductive JVal where
  | num : ℚ → JVal
  | str : String → JVal
  | obj : List (String × JVal) → JVal
  | arr : List JVal → JVal

/-- An object's field list. -/
abbrev JObj := List (String × JVal)

/-- Property lookup on an object: the first binding of the key. -/
def jlookup (k : String) : JObj → Option JVal
  | [] => none
  | (k', v) :: rest => if k = k' then some v else jlookup k rest

/-- Whether an object has a binding for a key. -/
def hasKey (k : String) (o : JObj) : Bool := (jlookup k o).isSome

/-- The object spread `\x7b ...a, ...b \x7d`: keys of `b` override keys of
`a`, all other keys of `a` survive unchanged. -/
def spreadMerge (a b : JObj) : JObj :=
  a.filter (fun kv => !hasKey kv.1 b) ++ b

/-- The client as seen by the server-integration seam: the current
snapshot object plus a count of updateDashboard render passes. -/
structure ClientState where
  currentData : JObj
  renderCount : ℕ

/-- updateFromServer: replace currentData by the spread merge of the old
snapshot with the incoming partial record, then render once. -/
def updateFromServer (newData : JObj) (st : ClientState) : ClientState where
  currentData := spreadMerge st.currentData newData
  renderCount := st.renderCount + 1

/-- Severity as the string stored in the JSON snapshot. -/
def AlertType.toStr : AlertType → String
  | .info => "info"
  | .warning => "warning"
  | .error => "error"

/-- generation.solar as a JSON object. -/
def Solar.toJ (s : Solar) : JVal :=
  .obj [("dcPower", .num s.dcPower), ("acPower", .num s.acPower),
        ("efficiency", .num s.efficiency), ("irradiance", .num s.irradiance),
        ("moduleTemp", .num s.moduleTemp)]

/-- generation.wind as a JSON object. -/
def WindGen.toJ (w : WindGen) : JVal :=
  .obj [("power", .num w.power), ("windSpeed", .num w.windSpeed),
        ("efficiency", .num w.efficiency)]

/-- generation.cbg as a JSON object. -/
def Cbg.toJ (c : Cbg) : JVal :=
  .obj [("power", .num c.power), ("status", .str c.status),
        ("efficiency", .num c.efficiency)]

/-- generation as a JSON object. -/
def Generation.toJ (g : Generation) : JVal :=
  .obj [("solar", g.solar.toJ), ("wind", g.wind.toJ), ("cbg", g.cbg.toJ),
        ("totalGeneration", .num g.totalGeneration)]

/-- A battery pack as a JSON object. -/
def BatteryPack.toJ (p : BatteryPack) : JVal :=
  .obj [("id", .num (p.id : ℚ)), ("soc", .num p.soc), ("soh", .num p.soh),
        ("temp", .num p.temp), ("voltage", .num p.voltage)]

/-- storage as a JSON object. -/
def Storage.toJ (st : Storage) : JVal :=
  .obj [("overallSOC", .num st.overallSOC),
        ("totalCapacity", .num st.totalCapacity),
        ("chargePower", .num st.chargePower),
        ("dischargePower", .num st.dischargePower),
        ("batteryPacks", .arr (st.batteryPacks.map BatteryPack.toJ))]

/-- demand as a JSON object. -/
def Demand.toJ (d : Demand) : JVal :=
  .obj [("totalLoad", .num d.totalLoad),
        ("criticalLoads", .num d.criticalLoads),
        ("flexibleLoads", .num d.flexibleLoads),
        ("peakReduction", .num d.peakReduction)]

/-- systemMetrics as a JSON object. -/
def SystemMetrics.toJ (m : SystemMetrics) : JVal :=
  .obj [("overallEfficiency", .num m.overallEfficiency),
        ("uptime", .num m.uptime),
        ("powerQuality",
          .obj [("voltage", .num m.powerQuality.voltage),
                ("frequency", .num m.powerQuality.frequency),
                ("thd", .num m.powerQuality.thd)])]

/-- weather as a JSON object. -/
def Weather.toJ (w : Weather) : JVal :=
  .obj [("temperature", .num w.temperature), ("humidity", .num w.humidity),
        ("windSpeed", .num w.windSpeed), ("irradiance", .num w.irradiance),
        ("cloudCover", .num w.cloudCover)]

/-- An alert as a JSON object. -/
def Alert.toJ (a : Alert) : JVal :=
  .obj [("id", .num (a.id : ℚ)), ("type", .str a.type.toStr),
        ("message", .str a.message), ("time", .str a.time)]

/-- The whole snapshot as the top-level currentData object. -/
def SystemData.toJ (d : SystemData) : JObj :=
  [("generation", d.generation.toJ), ("storage", d.storage.toJ),
   ("demand", d.demand.toJ), ("systemMetrics", d.systemMetrics.toJ),
   ("weather", d.weather.toJ), ("alerts", .arr (d.alerts.map Alert.toJ))]

/-! ### Helper lemmas about the battery block -/

theorem batteryStep_surplus {b : ℚ} {st : Storage} (h1 : b > 0)
    (h2 : st.overallSOC < 95) :
    batteryStep b st =
      { st with chargePower := min (b * 0.8) 15
                dischargePower := 0
                overallSOC := min 95 (st.overallSOC + 0.1) } := by
  rw [batteryStep, if_pos ⟨h1, h2⟩]

theorem batteryStep_deficit {b : ℚ} {st : Storage} (h1 : b < 0)
    (h2 : st.overallSOC > 20) :
    batteryStep b st =
      { st with dischargePower := min |b| 20
                chargePower := 0
                overallSOC := max 20 (st.overallSOC - 0.2) } := by
  have hn : ¬(b > 0 ∧ st.overallSOC < 95) := by
    rintro ⟨hb, -⟩
    exact absurd hb (not_lt.mpr h1.le)
  rw [batteryStep, if_neg hn, if_pos ⟨h1, h2⟩]

theorem batteryStep_hold {b : ℚ} {st : Storage}
    (h1 : ¬(b > 0 ∧ st.overallSOC < 95))
    (h2 : ¬(b < 0 ∧ st.overallSOC > 20)) :
    batteryStep b st = st := by
  rw [batteryStep, if_neg h1, if_neg h2]

theorem batteryStep_soc_mem {b : ℚ} {st : Storage}
    (h1 : 20 ≤ st.overallSOC) (h2 : st.overallSOC ≤ 95) :
    20 ≤ (batteryStep b st).overallSOC ∧ (batteryStep b st).overallSOC ≤ 95 := by
  rw [batteryStep]
  split
  · exact ⟨le_min (by norm_num) (by linarith), min_le_left _ _⟩
  · split
    · exact ⟨le_max_left _ _, max_le (by norm_num) (by linarith)⟩
    · exact ⟨h1, h2⟩

theorem batteryStep_batteryPacks (b : ℚ) (st : Storage) :
    (batteryStep b st).batteryPacks = st.batteryPacks := by
  rw [batteryStep]
  split
  · rfl
  · split <;> rfl

theorem batteryStep_exclusive {b : ℚ} {st : Storage}
    (h : st.chargePower = 0 ∨ st.dischargePower = 0) :
    (batteryStep b st).chargePower = 0 ∨ (batteryStep b st).dischargePower = 0 := by
  rw [batteryStep]
  split
  · exact Or.inr rfl
  · split
    · exact Or.inl rfl
    · exact h

/-! ### Helper lemmas about the pack loop -/

theorem updatePacks_soc_mem (rs rt : ℕ → ℚ) (soc : ℚ) :
    ∀ l : List BatteryPack, ∀ p ∈ updatePacks rs rt soc l,
      20 ≤ p.soc ∧ p.soc ≤ 95 := by
  intro l
  induction l generalizing rs rt with
  | nil => intro p hp; cases hp
  | cons q qs ih =>
      intro p hp
      rcases List.mem_cons.mp hp with h | h
      · subst h
        refine ⟨le_max_left _ _, max_le (by norm_num) (min_le_left _ _)⟩
      · exact ih _ _ p h

theorem updatePacks_soh (rs rt : ℕ → ℚ) (soc : ℚ) :
    ∀ l : List BatteryPack,
      (updatePacks rs rt soc l).map BatteryPack.soh = l.map BatteryPack.soh := by
  intro l
  induction l generalizing rs rt with
  | nil => rfl
  | cons q qs ih => simp [updatePacks, updatePack, ih]

/-! ### Projections of one simulation step -/

theorem simulate_storage_eq (env : Env) (s : SystemData) :
    ∃ b : ℚ,
      (simulateDataChanges env s).storage =
        { batteryStep b s.storage with
            batteryPacks :=
              updatePacks env.packSocR env.packTempR
                (batteryStep b s.storage).overallSOC
                (batteryStep b s.storage).batteryPacks } :=
  ⟨_, rfl⟩

theorem simulate_alerts (env : Env) (s : SystemData) :
    (simulateDataChanges env s).alerts = alertStep env s.alerts := rfl

/-- C2: the battery update charges at min(0.8·surplus, 15) with discharge 0
and SOC + 0.1 capped at 95 on a surplus with SOC < 95, discharges at
min(|deficit|, 20) with charge 0 and SOC − 0.2 floored at 20 on a deficit
with SOC > 20, and otherwise leaves chargePower, dischargePower and
overallSOC unchanged; in particular generation 80 against demand 60 yields
chargePower 15, and generation 50 against demand 70 yields dischargePower
20. -/
theorem batteryStep_branch_spec (gen load : ℚ) (st : Storage) :
    (gen - load > 0 → st.overallSOC < 95 →
      batteryStep (gen - load) st =
        { st with chargePower := min ((gen - load) * 0.8) 15
                  dischargePower := 0
                  overallSOC := min 95 (st.overallSOC + 0.1) }) ∧
    (gen - load < 0 → st.overallSOC > 20 →
      batteryStep (gen - load) st =
        { st with dischargePower := min |gen - load| 20
                  chargePower := 0
                  overallSOC := max 20 (st.overallSOC - 0.2) }) ∧
    (¬(gen - load > 0 ∧ st.overallSOC < 95) →
     ¬(gen - load < 0 ∧ st.overallSOC > 20) →
      batteryStep (gen - load) st = st) ∧
    (gen = 80 → load = 60 → st.overallSOC < 95 →
      batteryStep (gen - load) st =
        { st with chargePower := 15
                  dischargePower := 0
                  overallSOC := min 95 (st.overallSOC + 0.1) }) ∧
    (gen = 50 → load = 70 → st.overallSOC > 20 →
      batteryStep (gen - load) st =
        { st with dischargePower := 20
                  chargePower := 0
                  overallSOC := max 20 (st.overallSOC - 0.2) }) := by
  refine ⟨fun h1 h2 => batteryStep_surplus h1 h2,
          fun h1 h2 => batteryStep_deficit h1 h2,
          fun h1 h2 => batteryStep_hold h1 h2, ?_, ?_⟩
  · rintro rfl rfl h2
    rw [batteryStep_surplus (by norm_num) h2]
    have h16 : ((80 : ℚ) - 60) * 0.8 = 16 := by norm_num
    rw [h16, min_eq_right (by norm_num : (15 : ℚ) ≤ 16)]
  · rintro rfl rfl h2
    rw [batteryStep_deficit (by norm_num) h2]
    have h20 : |(50 : ℚ) - 70| = 20 := by
      rw [abs_of_neg (by norm_num)]
      norm_num
    rw [h20, min_self]

/-- Witness for C2: the surplus scenario at a concrete storage state with
SOC 50 produces chargePower 15, dischargePower 0 and SOC + 0.1. -/
theorem batteryStep_branch_spec_witness :
    batteryStep ((80 : ℚ) - 60)
        { overallSOC := 50, totalCapacity := 150, chargePower := 0,
          dischargePower := 0, batteryPacks := [] } =
      { overallSOC := min 95 ((50 : ℚ) + 0.1), totalCapacity := 150,
        chargePower := 15, dischargePower := 0, batteryPacks := [] } :=
  (batteryStep_branch_spec 80 60
    { overallSOC := 50, totalCapacity := 150, chargePower := 0,
      dischargePower := 0, batteryPacks := [] }).2.2.2.1
    rfl rfl (by decide)

/-- C6: the wind power curve round((s/12)³·25·10)/10 of the simulation
step is monotonically non-decreasing in wind speed on [0, 12]. -/
theorem windPower_monotone (s1 s2 : ℚ) (h0 : 0 ≤ s1) (h12 : s1 ≤ s2)
    (h2 : s2 ≤ 12) : windPower s1 ≤ windPower s2 := by
  unfold windPower round1 jsRound
  have hdiv : s1 / 12 ≤ s2 / 12 := div_le_div_of_nonneg_right h12 (by norm_num)
  have h0' : (0 : ℚ) ≤ s1 / 12 := div_nonneg h0 (by norm_num)
  have hpow : (s1 / 12) ^ 3 ≤ (s2 / 12) ^ 3 := pow_le_pow_left₀ h0' hdiv 3
  have harg : (s1 / 12) ^ 3 * 25 * 10 + 1 / 2 ≤ (s2 / 12) ^ 3 * 25 * 10 + 1 / 2 := by
    linarith
  have hfl : (⌊(s1 / 12) ^ 3 * 25 * 10 + 1 / 2⌋ : ℚ) ≤
      (⌊(s2 / 12) ^ 3 * 25 * 10 + 1 / 2⌋ : ℚ) := by
    exact_mod_cast Int.floor_le_floor harg
  exact div_le_div_of_nonneg_right hfl (by norm_num)

/-- Witness for C6: wind speeds 3 and 5 are in the domain and the curve
is non-decreasing between them. -/
theorem windPower_monotone_witness : windPower 3 ≤ windPower 5 :=
  windPower_monotone 3 5 (by norm_num) (by norm_num) (by norm_num)

theorem reachable_soc_bounds {s : SystemData} (h : Reachable s) :
    20 ≤ s.storage.overallSOC ∧ s.storage.overallSOC ≤ 95 := by
  induction h with
  | init => exact ⟨by decide, by decide⟩
  | step env hs ih =>
      obtain ⟨b, hb⟩ := simulate_storage_eq env _
      rw [hb]
      exact batteryStep_soc_mem ih.1 ih.2

/-- C1: in every reachable state the aggregate SOC lies within [20, 95],
and after every simulation step each battery pack's soc lies within
[20, 95] as well. -/
theorem soc_and_packs_within_bounds (s : SystemData) (h : Reachable s)
    (env : Env) :
    (20 ≤ s.storage.overallSOC ∧ s.storage.overallSOC ≤ 95) ∧
    ∀ p ∈ (simulateDataChanges env s).storage.batteryPacks,
      20 ≤ p.soc ∧ p.soc ≤ 95 := by
  refine ⟨reachable_soc_bounds h, ?_⟩
  obtain ⟨b, hb⟩ := simulate_storage_eq env s
  rw [hb]
  exact updatePacks_soc_mem _ _ _ _

/-- Witness for C1: the initial snapshot and one concrete step satisfy
the SOC bounds. -/
theorem soc_and_packs_within_bounds_witness :
    20 ≤ initializeData.storage.overallSOC ∧
      initializeData.storage.overallSOC ≤ 95 :=
  (soc_and_packs_within_bounds initializeData Reachable.init
    { rIrr := 0, rWind := 0, rCbg := 0, hourFactor := 1,
      packSocR := fun _ => 0, packTempR := fun _ => 0, rTemp := 0,
      rCloud := 0, rEff := 0, spawnAlert := false, rAlertType := 0,
      rAlertMsg := 0, now := 0, timeStr := "" }).1

/-- C8: in every reachable state at most one of chargePower and
dischargePower is nonzero. -/
theorem charge_discharge_exclusive (s : SystemData) (h : Reachable s) :
    s.storage.chargePower = 0 ∨ s.storage.dischargePower = 0 := by
  induction h with
  | init => exact Or.inr rfl
  | step env hs ih =>
      obtain ⟨b, hb⟩ := simulate_storage_eq env _
      rw [hb]
      exact batteryStep_exclusive ih

/-- Witness for C8: the initial snapshot has dischargePower 0. -/
theorem charge_discharge_exclusive_witness :
    initializeData.storage.chargePower = 0 ∨
      initializeData.storage.dischargePower = 0 :=
  charge_discharge_exclusive initializeData Reachable.init

/-- C10: the simulation step never writes humidity, uptime, power
quality, peak reduction, pack soh or the three efficiency fields, so in
every reachable state they keep their initial values. -/
theorem simulate_frame_fields (s : SystemData) (h : Reachable s) :
    s.weather.humidity = 65 ∧ s.systemMetrics.uptime = 99.7 ∧
    s.systemMetrics.powerQuality =
      { voltage := 230.5, frequency := 50.02, thd := 1.8 } ∧
    s.demand.peakReduction = 23.4 ∧
    s.storage.batteryPacks.map BatteryPack.soh = [96, 94, 97, 95] ∧
    s.generation.solar.efficiency = 94.3 ∧
    s.generation.wind.efficiency = 89.1 ∧
    s.generation.cbg.efficiency = 91.7 := by
  induction h with
  | init =>
      exact ⟨rfl, rfl, rfl, rfl, rfl, rfl, rfl, rfl⟩
  | step env hs ih =>
      obtain ⟨hum, hup, hpq, hpk, hsoh, hse, hwe, hce⟩ := ih
      refine ⟨hum, hup, hpq, hpk, ?_, hse, hwe, hce⟩
      obtain ⟨b, hb⟩ := simulate_storage_eq env _
      rw [hb]
      show (updatePacks _ _ _ _).map BatteryPack.soh = _
      rw [updatePacks_soh, batteryStep_batteryPacks]
      exact hsoh

/-- Witness for C10: the initial snapshot exhibits the untouched
values. -/
theorem simulate_frame_fields_witness :
    initializeData.weather.humidity = 65 ∧
    initializeData.systemMetrics.uptime = 99.7 ∧
    initializeData.systemMetrics.powerQuality =
      { voltage := 230.5, frequency := 50.02, thd := 1.8 } ∧
    initializeData.demand.peakReduction = 23.4 ∧
    initializeData.storage.batteryPacks.map BatteryPack.soh =
      [96, 94, 97, 95] ∧
    initializeData.generation.solar.efficiency = 94.3 ∧
    initializeData.generation.wind.efficiency = 89.1 ∧
    initializeData.generation.cbg.efficiency = 91.7 :=
  simulate_frame_fields initializeData Reachable.init

theorem alertStep_length_le {env : Env} {alerts : List Alert}
    (h : alerts.length ≤ 5) : (alertStep env alerts).length ≤ 5 := by
  rw [alertStep]
  split
  · dsimp only
    split
    · rw [List.length_dropLast]
      simp only [List.length_cons]
      omega
    · rename_i hlen
      simp only [List.length_cons] at hlen ⊢
      omega
  · exact h

theorem reachable_alerts_length {s : SystemData} (h : Reachable s) :
    s.alerts.length ≤ 5 := by
  induction h with
  | init => decide
  | step env hs ih =>
      rw [simulate_alerts]
      exact alertStep_length_le ih

/-- C3: every reachable state holds at most 5 alerts, and a step that
spawns an alert prepends the new alert at index 0 with the previous
entries following in order, dropping the oldest entry when the length
would exceed 5. -/
theorem alerts_bounded_and_newest_first (s : SystemData) (h : Reachable s)
    (env : Env) :
    s.alerts.length ≤ 5 ∧
    (env.spawnAlert = true →
      (simulateDataChanges env s).alerts =
        mkAlert env ::
          (if s.alerts.length + 1 > 5 then s.alerts.dropLast
           else s.alerts)) := by
  refine ⟨reachable_alerts_length h, fun hspawn => ?_⟩
  rw [simulate_alerts, alertStep, if_pos hspawn]
  simp only [List.length_cons]
  split
  · rename_i hlen
    have hne : s.alerts ≠ [] := by
      intro hnil
      rw [hnil] at hlen
      simp at hlen
    rw [List.dropLast_cons_of_ne_nil hne]
  · rfl

/-- Witness for C3: starting from the initial snapshot, a concrete
alert-spawning step prepends the new alert without truncation. -/
theorem alerts_bounded_and_newest_first_witness :
    initializeData.alerts.length ≤ 5 ∧
    ((simulateDataChanges
        { rIrr := 0, rWind := 0, rCbg := 0, hourFactor := 1,
          packSocR := fun _ => 0, packTempR := fun _ => 0, rTemp := 0,
          rCloud := 0, rEff := 0, spawnAlert := true, rAlertType := 0,
          rAlertMsg := 0, now := 7, timeStr := "14:30" }
        initializeData).alerts =
      mkAlert
          { rIrr := 0, rWind := 0, rCbg := 0, hourFactor := 1,
            packSocR := fun _ => 0, packTempR := fun _ => 0, rTemp := 0,
            rCloud := 0, rEff := 0, spawnAlert := true, rAlertType := 0,
            rAlertMsg := 0, now := 7, timeStr := "14:30" } ::
        (if initializeData.alerts.length + 1 > 5 then
          initializeData.alerts.dropLast
         else initializeData.alerts)) :=
  ⟨(alerts_bounded_and_newest_first initializeData Reachable.init
      { rIrr := 0, rWind := 0, rCbg := 0, hourFactor := 1,
        packSocR := fun _ => 0, packTempR := fun _ => 0, rTemp := 0,
        rCloud := 0, rEff := 0, spawnAlert := true, rAlertType := 0,
        rAlertMsg := 0, now := 7, timeStr := "14:30" }).1,
   (alerts_bounded_and_newest_first initializeData Reachable.init
      { rIrr := 0, rWind := 0, rCbg := 0, hourFactor := 1,
        packSocR := fun _ => 0, packTempR := fun _ => 0, rTemp := 0,
        rCloud := 0, rEff := 0, spawnAlert := true, rAlertType := 0,
        rAlertMsg := 0, now := 7, timeStr := "14:30" }).2 rfl⟩

theorem updateDemandChart_lengths {c : DemandChart}
    (hg : c.labels.length = c.genData.length)
    (hl : c.labels.length = c.loadData.length) (h10 : c.labels.length ≤ 10)
    (t : String) (g l : ℚ) :
    (updateDemandChart t g l c).labels.length =
        (updateDemandChart t g l c).genData.length ∧
      (updateDemandChart t g l c).labels.length =
        (updateDemandChart t g l c).loadData.length ∧
      (updateDemandChart t g l c).labels.length ≤ 10 := by
  rw [updateDemandChart]
  dsimp only
  split
  · rename_i hlen
    simp only [List.length_tail, List.length_append, List.length_singleton] at *
    omega
  · rename_i hlen
    simp only [List.length_append, List.length_singleton] at *
    omega

theorem chart_reachable_lengths {c : DemandChart} (h : ChartReachable c) :
    c.labels.length = c.genData.length ∧
      c.labels.length = c.loadData.length ∧ c.labels.length ≤ 10 := by
  induction h with
  | init => exact ⟨rfl, rfl, by decide⟩
  | step t g l hc ih => exact updateDemandChart_lengths ih.1 ih.2.1 ih.2.2 t g l

/-- C4: from the freshly created chart every reachable chart state keeps
its label list and both series at one common length of at most 10; a
render appends one point to each, and once the length would exceed 10 the
oldest front element of each is evicted. -/
theorem chart_window_spec (c : DemandChart) (h : ChartReachable c)
    (t : String) (g l : ℚ) :
    (c.labels.length = c.genData.length ∧
      c.labels.length = c.loadData.length ∧ c.labels.length ≤ 10) ∧
    (c.labels.length + 1 ≤ 10 →
      updateDemandChart t g l c =
        { labels := c.labels ++ [t], genData := c.genData ++ [g],
          loadData := c.loadData ++ [l] }) ∧
    (c.labels.length + 1 > 10 →
      updateDemandChart t g l c =
        { labels := c.labels.tail ++ [t], genData := c.genData.tail ++ [g],
          loadData := c.loadData.tail ++ [l] }) := by
  obtain ⟨hg, hl, h10⟩ := chart_reachable_lengths h
  refine ⟨⟨hg, hl, h10⟩, ?_, ?_⟩
  · intro hle
    rw [updateDemandChart]
    dsimp only
    rw [if_neg]
    simp only [List.length_append, List.length_singleton]
    omega
  · intro hgt
    have hne : c.labels ≠ [] := by
      intro hnil
      rw [hnil] at hgt
      simp at hgt
    have hgne : c.genData ≠ [] := by
      intro hnil
      rw [hnil] at hg
      simp only [List.length_nil] at hg
      omega
    have hlne : c.loadData ≠ [] := by
      intro hnil
      rw [hnil] at hl
      simp only [List.length_nil] at hl
      omega
    rw [updateDemandChart]
    dsimp only
    rw [if_pos]
    · rw [List.tail_append_singleton_of_ne_nil hne,
        List.tail_append_singleton_of_ne_nil hgne,
        List.tail_append_singleton_of_ne_nil hlne]
    · simp only [List.length_append, List.length_singleton]
      omega

/-- Witness for C4: one render on the freshly created 6-point chart
appends without eviction. -/
theorem chart_window_spec_witness :
    updateDemandChart "14:30" 75 66 initialDemandChart =
      { labels := initialDemandChart.labels ++ ["14:30"],
        genData := initialDemandChart.genData ++ [75],
        loadData := initialDemandChart.loadData ++ [66] } :=
  (chart_window_spec initialDemandChart ChartReachable.init
    "14:30" 75 66).2.1 (by decide)

/-! ### Lookup lemmas for the object spread -/

theorem jlookup_append_of_none {k : String} {x : JObj}
    (h : jlookup k x = none) (y : JObj) :
    jlookup k (x ++ y) = jlookup k y := by
  induction x with
  | nil => rfl
  | cons kv rest ih =>
      obtain ⟨k', v⟩ := kv
      by_cases hk : k = k'
      · rw [jlookup, if_pos hk] at h
        exact absurd h (by simp)
      · rw [jlookup, if_neg hk] at h
        rw [List.cons_append, jlookup, if_neg hk]
        exact ih h

theorem jlookup_append_of_some {k : String} {x : JObj} {v : JVal}
    (h : jlookup k x = some v) (y : JObj) :
    jlookup k (x ++ y) = some v := by
  induction x with
  | nil => exact absurd h (by simp [jlookup])
  | cons kv rest ih =>
      obtain ⟨k', w⟩ := kv
      by_cases hk : k = k'
      · rw [jlookup, if_pos hk] at h
        rw [List.cons_append, jlookup, if_pos hk]
        exact h
      · rw [jlookup, if_neg hk] at h
        rw [List.cons_append, jlookup, if_neg hk]
        exact ih h

theorem jlookup_filter_of_hasKey {k : String} {b : JObj}
    (h : hasKey k b = true) (a : JObj) :
    jlookup k (a.filter fun kv => !hasKey kv.1 b) = none := by
  induction a with
  | nil => rfl
  | cons kv rest ih =>
      obtain ⟨k', v⟩ := kv
      rw [List.filter_cons]
      by_cases hk : k = k'
      · subst hk
        rw [if_neg (by rw [h]; decide)]
        exact ih
      · split
        · rw [jlookup, if_neg hk]
          exact ih
        · exact ih

theorem jlookup_filter_of_not_hasKey {k : String} {b : JObj}
    (h : hasKey k b = false) (a : JObj) :
    jlookup k (a.filter fun kv => !hasKey kv.1 b) = jlookup k a := by
  induction a with
  | nil => rfl
  | cons kv rest ih =>
      obtain ⟨k', v⟩ := kv
      rw [List.filter_cons]
      by_cases hk : k = k'
      · subst hk
        rw [if_pos (by rw [h]; decide), jlookup, if_pos rfl, jlookup,
          if_pos rfl]
      · split
        · rw [jlookup, if_neg hk, jlookup, if_neg hk]
          exact ih
        · rw [jlookup, if_neg hk]
          exact ih

theorem jlookup_spreadMerge_of_some {k : String} {b : JObj} {v : JVal}
    (h : jlookup k b = some v) (a : JObj) :
    jlookup k (spreadMerge a b) = some v := by
  rw [spreadMerge]
  have hk : hasKey k b = true := by rw [hasKey, h]; rfl
  rw [jlookup_append_of_none (jlookup_filter_of_hasKey hk a) b]
  exact h

theorem jlookup_spreadMerge_of_none {k : String} {b : JObj}
    (h : jlookup k b = none) (a : JObj) :
    jlookup k (spreadMerge a b) = jlookup k a := by
  rw [spreadMerge]
  have hk : hasKey k b = false := by rw [hasKey, h]; rfl
  cases ha : jlookup k a with
  | none =>
      rw [jlookup_append_of_none, h]
      rw [jlookup_filter_of_not_hasKey hk a, ha]
  | some w =>
      rw [jlookup_append_of_some]
      rw [jlookup_filter_of_not_hasKey hk a, ha]

/-- C5: updateFromServer overwrites exactly the top-level keys provided by
the partial record, leaves every other top-level key untouched, and
triggers exactly one render pass. -/
theorem updateFromServer_frame (newData : JObj) (st : ClientState)
    (k : String) :
    (∀ v, jlookup k newData = some v →
      jlookup k (updateFromServer newData st).currentData = some v) ∧
    (jlookup k newData = none →
      jlookup k (updateFromServer newData st).currentData =
        jlookup k st.currentData) ∧
    (updateFromServer newData st).renderCount = st.renderCount + 1 :=
  ⟨fun _ h => jlookup_spreadMerge_of_some h st.currentData,
   fun h => jlookup_spreadMerge_of_none h st.currentData,
   rfl⟩

/-- Witness for C5: patching the weather key of the initial snapshot
replaces it, keeps the storage key, and renders once. -/
theorem updateFromServer_frame_witness :
    (jlookup "weather"
        (updateFromServer [("weather", JVal.obj [("temperature", JVal.num 30)])]
          { currentData := initializeData.toJ,
            renderCount := 0 }).currentData =
      some (JVal.obj [("temperature", JVal.num 30)])) ∧
    (jlookup "storage"
        (updateFromServer [("weather", JVal.obj [("temperature", JVal.num 30)])]
          { currentData := initializeData.toJ,
            renderCount := 0 }).currentData =
      jlookup "storage" initializeData.toJ) ∧
    (updateFromServer [("weather", JVal.obj [("temperature", JVal.num 30)])]
        { currentData := initializeData.toJ,
          renderCount := 0 }).renderCount = 0 + 1 :=
  ⟨(updateFromServer_frame
      [("weather", JVal.obj [("temperature", JVal.num 30)])]
      { currentData := initializeData.toJ, renderCount := 0 } "weather").1
      (JVal.obj [("temperature", JVal.num 30)]) rfl,
   (updateFromServer_frame
      [("weather", JVal.obj [("temperature", JVal.num 30)])]
      { currentData := initializeData.toJ, renderCount := 0 } "storage").2.1
      rfl,
   (updateFromServer_frame
      [("weather", JVal.obj [("temperature", JVal.num 30)])]
      { currentData := initializeData.toJ, renderCount := 0 } "weather").2.2⟩

/-- The field list of a JSON object value, empty for non-objects. -/
def JVal.fields : JVal → JObj
  | .obj o => o
  | _ => []

/-- C9: the updateFromServer merge is shallow: a provided top-level key
replaces the entire existing subtree with the incoming value, so a
partial record holding only generation.solar yields a generation object
without the wind, cbg and totalGeneration fields the initial snapshot
had. -/
theorem spread_merge_shallow (newData : JObj) (st : ClientState)
    (g : JVal) :
    (jlookup "generation" newData = some g →
      jlookup "generation" (updateFromServer newData st).currentData =
        some g) ∧
    (∀ v,
      jlookup "generation"
          (updateFromServer
            [("generation", JVal.obj [("solar", JVal.num 99)])]
            { currentData := initializeData.toJ,
              renderCount := 0 }).currentData = some v →
        hasKey "wind" v.fields = false ∧ hasKey "cbg" v.fields = false ∧
          hasKey "totalGeneration" v.fields = false) ∧
    (∀ v, jlookup "generation" initializeData.toJ = some v →
      hasKey "wind" v.fields = true ∧ hasKey "cbg" v.fields = true ∧
        hasKey "totalGeneration" v.fields = true) := by
  refine ⟨fun h => jlookup_spreadMerge_of_some h st.currentData, ?_, ?_⟩
  · intro v hv
    have hmerge :
        jlookup "generation"
            (updateFromServer
              [("generation", JVal.obj [("solar", JVal.num 99)])]
              { currentData := initializeData.toJ,
                renderCount := 0 }).currentData =
          some (JVal.obj [("solar", JVal.num 99)]) := by
      have hlk : jlookup "generation"
          [("generation", JVal.obj [("solar", JVal.num 99)])] =
            some (JVal.obj [("solar", JVal.num 99)]) := rfl
      exact jlookup_spreadMerge_of_some hlk initializeData.toJ
    rw [hmerge] at hv
    injection hv with hv
    subst hv
    exact ⟨rfl, rfl, rfl⟩
  · intro v hv
    have hinit : jlookup "generation" initializeData.toJ =
        some initializeData.generation.toJ := rfl
    rw [hinit] at hv
    injection hv with hv
    subst hv
    exact ⟨rfl, rfl, rfl⟩

/-- Witness for C9: the generation subtree of the initial snapshot is
replaced wholesale by a solar-only partial record. -/
theorem spread_merge_shallow_witness :
    jlookup "generation"
        (updateFromServer [("generation", JVal.obj [("solar", JVal.num 99)])]
          { currentData := initializeData.toJ,
            renderCount := 0 }).currentData =
      some (JVal.obj [("solar", JVal.num 99)]) :=
  (spread_merge_shallow [("generation", JVal.obj [("solar", JVal.num 99)])]
    { currentData := initializeData.toJ, renderCount := 0 }
    (JVal.obj [("solar", JVal.num 99)])).1 rfl

/-- C7: gauge construction on a missing canvas returns an absent handle;
the render step's gauge writes are guarded so an absent handle is skipped
and never faults; an unguarded KPI text writer faults on a missing
element. -/
theorem gauge_missing_element_tolerated (dom : Dom)
    (canvasId label unit color id text timeLabel : String)
    (value maxv : ℚ) (g : Gauge) (data : SystemData) :
    (dom canvasId = none →
      createGaugeChart dom canvasId value maxv label unit color = none) ∧
    (updateGauge none value maxv = none) ∧
    (updateGauge (some g) value maxv =
      some { data0 := value, data1 := maxv - value }) ∧
    (updateCharts data timeLabel
        { solarGauge := none, windGauge := none, cbgGauge := none,
          batteryGauge := none, demandChart := none } =
      { solarGauge := none, windGauge := none, cbgGauge := none,
        batteryGauge := none, demandChart := none }) ∧
    (dom id = none →
      writeKpi dom id text =
        Except.error "TypeError: textContent of null") := by
  refine ⟨fun h => ?_, rfl, rfl, rfl, fun h => ?_⟩
  · rw [createGaugeChart, h]
  · rw [writeKpi, h]
    rfl

/-- Witness for C7: on an empty presentation surface, gauge construction
yields an absent handle and the KPI writer faults. -/
theorem gauge_missing_element_tolerated_witness :
    (createGaugeChart (fun _ => none) "solarGauge" 43.2 60 "Solar Power"
        "kW" "#FFC185" = none) ∧
    (writeKpi (fun _ => none) "totalGeneration" "74.0 kW" =
      Except.error "TypeError: textContent of null") :=
  ⟨(gauge_missing_element_tolerated (fun _ => none) "solarGauge"
      "Solar Power" "kW" "#FFC185" "totalGeneration" "74.0 kW" "14:30"
      43.2 60 { data0 := 0, data1 := 0 } initializeData).1 rfl,
   (gauge_missing_element_tolerated (fun _ => none) "solarGauge"
      "Solar Power" "kW" "#FFC185" "totalGeneration" "74.0 kW" "14:30"
      43.2 60 { data0 := 0, data1 := 0 } initializeData).2.2.2.2 rfl⟩

end Microgrid
